import Mathlib

/-!
Verification development for the openwebui-playwright-tool repository.

The repository holds three near-duplicate plugin modules
(`playwright_web_tool.py`, `playwright_async_tool.py`,
`playwright_web_search_tool.py`), each exposing browser-automation
primitives as request/response operations on a lazily-initialized
session handle.  Every operation performs delegated calls into the
external Playwright engine and serializes a JSON envelope.

The shallow embedding below models:
  * JSON values and the serialized envelopes (`JVal`, `ToolResult`);
    a Python dict is an ordered key/value list with insert-or-replace
    assignment, matching dict insertion-order semantics;
  * engine resources abstracted to numeric identifiers; a delegated
    engine call that can raise is a parameter of type `Except String α`
    carrying `str(e)` on the error side (the `await` of the async
    variants is transparent to this embedding, so each definition for
    `playwright_web_tool.py` equally embeds the corresponding function
    of `playwright_async_tool.py`);
  * the session handle as a record of four optional resources, with
    `_ensure_browser` and `close_browser` threading it explicitly;
  * the observable order of engine calls, where claims depend on it,
    as an explicit event trace.
-/

/-- A JSON value, as produced by `json.dumps`.  Objects keep their key
order (Python dict insertion order). -/
inductive JVal where
  | s : String → JVal
  | n : Int → JVal
  | b : Bool → JVal
  | null : JVal
  | arr : List JVal → JVal
  | obj : List (String × JVal) → JVal

/-- The value returned by a tool operation: either the raw string the
Python function returned directly (e.g. page text on success), or the
`json.dumps` serialization of a dict, kept structured here. -/
inductive ToolResult where
  | raw : String → ToolResult
  | env : List (String × JVal) → ToolResult

/-- First value bound to a key in an envelope, if any. -/
def lookupKey : List (String × JVal) → String → Option JVal
  | [], _ => none
  | (k, v) :: rest, key => if k = key then some v else lookupKey rest key

/-- The status discriminator of a result, when the result is a
structured envelope that has one. -/
def envStatus : ToolResult → Option JVal
  | .raw _ => none
  | .env kvs => lookupKey kvs "status"

/-- Whether a result is a structured record whose status discriminator
is the string "success" or the string "error". -/
def isStructuredStatus (r : ToolResult) : Bool :=
  match envStatus r with
  | some (.s "success") => true
  | some (.s "error") => true
  | _ => false

/-- Python dict assignment `d[k] = v` on the ordered-list model:
replaces the value in place when the key is present, appends otherwise. -/
def dictInsert (d : List (String × JVal)) (k : String) (v : JVal) :
    List (String × JVal) :=
  if d.any (fun kv => kv.1 = k) then
    d.map (fun kv => if kv.1 = k then (k, v) else kv)
  else d ++ [(k, v)]

/-- `None`-or-string, as `json.dumps` serializes `Optional[str]`. -/
def optStr : Option String → JVal
  | none => .null
  | some s => .s s

/-- `None`-or-int, as `json.dumps` serializes `Optional[int]`. -/
def optInt : Option Int → JVal
  | none => .null
  | some i => .n i

/-- The base64 alphabet character for a 6-bit group. -/
def b64char (n : Nat) : Char :=
  ("ABCDEFGHIJKLMNOPQRSTUVWXYZabcdefghijklmnopqrstuvwxyz0123456789+/").toList.getD n 'A'

/-- Standard base64 with padding over a byte list, embedding Python's
`base64.b64encode(...).decode('utf-8')`. -/
def b64encode : List Nat → String
  | [] => ""
  | [a] =>
    let w := (a % 256) * 65536
    String.mk [b64char (w / 262144), b64char (w / 4096 % 64)] ++ "=="
  | [a, b] =>
    let w := (a % 256) * 65536 + (b % 256) * 256
    String.mk [b64char (w / 262144), b64char (w / 4096 % 64),
               b64char (w / 64 % 64)] ++ "="
  | a :: b :: c :: rest =>
    let w := (a % 256) * 65536 + (b % 256) * 256 + (c % 256)
    String.mk [b64char (w / 262144), b64char (w / 4096 % 64),
               b64char (w / 64 % 64), b64char (w % 64)] ++ b64encode rest

/-- The session handle: the driver/browser/context/page ownership chain
of `Tools.__init__`, each field `None` until lazily created.  Engine
resources are abstracted to numeric identifiers. -/
structure Handle where
  playwright : Option Nat
  browser : Option Nat
  context : Option Nat
  page : Option Nat
deriving DecidableEq, Repr

/-- How many engine constructions one `_ensure_browser` call performed:
`sync_playwright().start()` / `launch` / `new_context` / `new_page`. -/
structure EngineCounts where
  starts : Nat
  launches : Nat
  newContexts : Nat
  newPages : Nat
deriving DecidableEq, Repr

namespace WebTool

/-- Embeds `Tools._ensure_browser` of `playwright_web_tool.py`
(lines 51-70): each of the four lazy-init branches runs only when its
field is unset; `supply` provides fresh resource identifiers for
whatever the engine constructs (the engine calls are assumed to
succeed; a launch failure flows to the caller's generic handler).
Returns the updated handle, the remaining supply, and the per-call
construction counts. -/
def ensure_browser (supply : Nat) (h : Handle) :
    Handle × Nat × EngineCounts :=
  let (pw, s1, c1) :=
    match h.playwright with
    | some x => (x, supply, 0)
    | none => (supply, supply + 1, 1)
  let (br, s2, c2) :=
    match h.browser with
    | some x => (x, s1, 0)
    | none => (s1, s1 + 1, 1)
  let (ctx, s3, c3) :=
    match h.context with
    | some x => (x, s2, 0)
    | none => (s2, s2 + 1, 1)
  let (pg, s4, c4) :=
    match h.page with
    | some x => (x, s3, 0)
    | none => (s3, s3 + 1, 1)
  (⟨some pw, some br, some ctx, some pg⟩, s4, ⟨c1, c2, c3, c4⟩)

/-- The error envelope of the `except` handler of `close_browser`. -/
def cleanupErr (e : String) : ToolResult :=
  .env [("status", .s "error"), ("error", .s e),
        ("message", .s ("Cleanup failed: " ++ e))]

/-- Tail of `Tools.close_browser` from the `if self.playwright:` guard. -/
def closeFromPlaywright (h : Handle) (ps : Except String Unit) :
    Handle × ToolResult :=
  match h.playwright with
  | none =>
    (h, .env [("status", .s "success"),
              ("message", .s "Browser closed and resources cleaned up")])
  | some _ =>
    match ps with
    | .error e => (h, cleanupErr e)
    | .ok _ =>
      ({ h with playwright := none },
       .env [("status", .s "success"),
             ("message", .s "Browser closed and resources cleaned up")])

/-- Tail of `Tools.close_browser` from the `if self.browser:` guard. -/
def closeFromBrowser (h : Handle) (bc ps : Except String Unit) :
    Handle × ToolResult :=
  match h.browser with
  | none => closeFromPlaywright h ps
  | some _ =>
    match bc with
    | .error e => (h, cleanupErr e)
    | .ok _ => closeFromPlaywright { h with browser := none } ps

/-- Tail of `Tools.close_browser` from the `if self.context:` guard. -/
def closeFromContext (h : Handle) (cc bc ps : Except String Unit) :
    Handle × ToolResult :=
  match h.context with
  | none => closeFromBrowser h bc ps
  | some _ =>
    match cc with
    | .error e => (h, cleanupErr e)
    | .ok _ => closeFromBrowser { h with context := none } bc ps

/-- Embeds `Tools.close_browser` of `playwright_web_tool.py`
(lines 551-587): one `try` wraps the whole reverse-order teardown, so a
release that raises jumps straight to the `except` handler, leaving the
raising field and every later field untouched.  The parameters
`pc cc bc ps` are the outcomes of `page.close()`, `context.close()`,
`browser.close()` and `playwright.stop()`; a release is only attempted
when its field is set. -/
def close_browser (h : Handle) (pc cc bc ps : Except String Unit) :
    Handle × ToolResult :=
  match h.page with
  | none => closeFromContext h cc bc ps
  | some _ =>
    match pc with
    | .error e => (h, cleanupErr e)
    | .ok _ => closeFromContext { h with page := none } cc bc ps

end WebTool

/-- A matched DOM element handle, reduced to the three read operations
the extraction loops perform on it: `inner_text()`, `inner_html()` and
`get_attribute(attr)` (the last returns `None` when the attribute is
missing).  Each read can raise. -/
structure Elem where
  innerText : Except String String
  innerHtml : Except String String
  getAttr : String → Except String (Option String)

/-- One iteration of the inner attribute loop of `extract_elements`:
"text" reads the visible text, "html" the inner markup, anything else a
literal attribute. -/
def readAttr (el : Elem) (attr : String) : Except String (String × JVal) :=
  if attr = "text" then
    match el.innerText with
    | .error e => .error e
    | .ok t => .ok ("text", .s t)
  else if attr = "html" then
    match el.innerHtml with
    | .error e => .error e
    | .ok t => .ok ("html", .s t)
  else
    match el.getAttr attr with
    | .error e => .error e
    | .ok v => .ok (attr, optStr v)

/-- The `element_data` dict built for one element: attribute reads in
list order, dict assignment after each; the first raising read aborts. -/
def extractOne (attrs : List String) (el : Elem) :
    Except String (List (String × JVal)) :=
  go attrs []
where
  go : List String → List (String × JVal) → Except String (List (String × JVal))
    | [], d => .ok d
    | attr :: rest, d =>
      match readAttr el attr with
      | .error e => .error e
      | .ok (k, v) => go rest (dictInsert d k v)

/-- The outer element loop of `extract_elements`: builds the per-element
records in engine (DOM) order; the first raising read aborts the loop
with its exception, discarding all records built so far. -/
def extractAll (attrs : List String) :
    List Elem → Except String (List (List (String × JVal)))
  | [] => .ok []
  | el :: rest =>
    match extractOne attrs el with
    | .error e => .error e
    | .ok d =>
      match extractAll attrs rest with
      | .error e => .error e
      | .ok ds => .ok (d :: ds)

/-- Split a character list on the comma separator, as Python
`str.split(",")` does (an empty input yields one empty field). -/
def charSplit : List Char → List (List Char)
  | [] => [[]]
  | c :: rest =>
    if c = ',' then [] :: charSplit rest
    else
      match charSplit rest with
      | [] => [[c]]
      | g :: gs => (c :: g) :: gs

/-- Strip leading and trailing whitespace, as Python `str.strip()`
does. -/
def stripChars (cs : List Char) : List Char :=
  ((cs.dropWhile Char.isWhitespace).reverse.dropWhile Char.isWhitespace).reverse

/-- The attribute-list preprocessing of the web-tool variants:
`[a.strip() for a in attributes.split(",")]`. -/
def splitAttrs (attributes : String) : List String :=
  (charSplit attributes.toList).map (fun cs => String.mk (stripChars cs))

/-- Scroll directions of `scroll_page`. -/
inductive ScrollDir where
  | up | down | top | bottom
deriving DecidableEq, Repr

/-- The scroll script chosen by the `if direction ==` chain of
`scroll_page`. -/
def scrollScript : ScrollDir → String
  | .top => "window.scrollTo(0, 0)"
  | .bottom => "window.scrollTo(0, document.body.scrollHeight)"
  | .up => "window.scrollBy(0, -window.innerHeight)"
  | .down => "window.scrollBy(0, window.innerHeight)"

/-- Observable engine interactions of `click_element`:
`expect_navigation()` entering its context (the moment the navigation
wait begins), the click dispatch, and the context exit that awaits the
navigation. -/
inductive EngineEvent where
  | beginWaitNav
  | clickCall (selector : String)
  | awaitNav
deriving DecidableEq, Repr

/-- Which engine capture call `take_screenshot` performed. -/
inductive ScreenshotCall where
  | element (selector : String)
  | page (fullPage : Bool)
  | noCapture
deriving DecidableEq, Repr

/-- Exceptions as `wait_for_element` distinguishes them: the dedicated
`PlaywrightTimeoutError` versus any other exception with its `str(e)`. -/
inductive PwErr where
  | timeout
  | other (msg : String)
deriving DecidableEq, Repr

/-- One `div.g` result block of `search_google`, reduced to what the
per-block loop body reads: presence of the `h3` / `a` / `div.VwiC3b`
sub-elements and the outcome of the read performed on each when
present. -/
structure SearchBlock where
  titleElem : Option (Except String String)
  linkElem : Option (Except String (Option String))
  snippetElem : Option (Except String String)

/-- The per-block body of `search_google`: the block contributes a
title/url/snippet triple only when `h3` and `a` are present and every
read performed succeeds; a raising read is swallowed by the inner
`except: continue`, skipping just this block. -/
def processBlock (blk : SearchBlock) :
    Option (String × Option String × String) :=
  match blk.titleElem, blk.linkElem with
  | some tr, some lr =>
    match tr with
    | .error _ => none
    | .ok t =>
      match lr with
      | .error _ => none
      | .ok l =>
        match blk.snippetElem with
        | some (.error _) => none
        | some (.ok sn) => some (t, l, sn)
        | none => some (t, l, "")
  | _, _ => none

namespace WebTool

/-- Embeds `Tools.navigate_to_url` of `playwright_web_tool.py`
(lines 72-107).  `gotoRes` is the outcome of `page.goto` (carrying the
optional response status), `titleRes` of `page.title()`, and `finalUrl`
is `page.url` after navigation. -/
def navigate_to_url (url waitUntil : String)
    (gotoRes : Except String (Option Int))
    (titleRes : Except String String) (finalUrl : String) : ToolResult :=
  match gotoRes with
  | .error e =>
    .env [("status", .s "error"), ("error", .s e),
          ("message", .s ("Navigation failed: " ++ e))]
  | .ok sc =>
    match titleRes with
    | .error e =>
      .env [("status", .s "error"), ("error", .s e),
            ("message", .s ("Navigation failed: " ++ e))]
    | .ok t =>
      .env [("status", .s "success"), ("url", .s finalUrl),
            ("title", .s t), ("status_code", optInt sc),
            ("message", .s ("Navigated to " ++ finalUrl))]

/-- Embeds `Tools.get_page_text` of `playwright_web_tool.py`
(lines 109-126): on success the raw evaluated text is returned directly
(not an envelope); on failure the envelope holds only `status` and
`error` — no `message` key. -/
def get_page_text (evalRes : Except String String) : ToolResult :=
  match evalRes with
  | .ok t => .raw t
  | .error e => .env [("status", .s "error"), ("error", .s e)]

/-- Embeds `Tools.get_page_html` of `playwright_web_tool.py`
(lines 128-144): same shape as `get_page_text`, over `page.content()`. -/
def get_page_html (contentRes : Except String String) : ToolResult :=
  match contentRes with
  | .ok t => .raw t
  | .error e => .env [("status", .s "error"), ("error", .s e)]

/-- The generic `except` envelope of `click_element`. -/
def clickErr (selector e : String) : ToolResult :=
  .env [("status", .s "error"), ("error", .s e),
        ("message", .s ("Failed to click " ++ selector ++ ": " ++ e))]

/-- Embeds `Tools.click_element` of `playwright_web_tool.py`
(lines 146-195), together with the trace of engine events it performs.
With `wait_for_navigation` the code runs
`with self.page.expect_navigation(): self.page.click(selector)`:
entering the context manager begins the navigation wait, the click is
dispatched inside it, and exiting awaits the navigation.  `clickRes`
and `navRes` are the outcomes of the click and of the awaited
navigation; `postUrl` is `page.url` after the block (the
post-navigation URL). -/
def click_element (selector : String) (waitForNavigation : Bool)
    (clickRes navRes : Except String Unit) (postUrl : String) :
    List EngineEvent × ToolResult :=
  if waitForNavigation then
    match clickRes with
    | .error e => ([.beginWaitNav, .clickCall selector], clickErr selector e)
    | .ok _ =>
      match navRes with
      | .error e =>
        ([.beginWaitNav, .clickCall selector, .awaitNav], clickErr selector e)
      | .ok _ =>
        ([.beginWaitNav, .clickCall selector, .awaitNav],
         .env [("status", .s "success"),
               ("message", .s ("Clicked " ++ selector ++ " and navigated")),
               ("navigated", .b true), ("new_url", .s postUrl)])
  else
    match clickRes with
    | .error e => ([.clickCall selector], clickErr selector e)
    | .ok _ =>
      ([.clickCall selector],
       .env [("status", .s "success"),
             ("message", .s ("Clicked " ++ selector)),
             ("navigated", .b false)])

/-- Embeds `Tools.fill_input` of `playwright_web_tool.py`
(lines 197-236): `page.fill`, then `page.press(selector, "Enter")` only
when `submit` is set. -/
def fill_input (selector value : String) (submit : Bool)
    (fillRes pressRes : Except String Unit) : ToolResult :=
  match fillRes with
  | .error e =>
    .env [("status", .s "error"), ("error", .s e),
          ("message", .s ("Failed to fill " ++ selector ++ ": " ++ e))]
  | .ok _ =>
    if submit then
      match pressRes with
      | .error e =>
        .env [("status", .s "error"), ("error", .s e),
              ("message", .s ("Failed to fill " ++ selector ++ ": " ++ e))]
      | .ok _ =>
        .env [("status", .s "success"),
              ("message", .s ("Filled " ++ selector ++ " with text")),
              ("submitted", .b true)]
    else
      .env [("status", .s "success"),
            ("message", .s ("Filled " ++ selector ++ " with text")),
            ("submitted", .b false)]

/-- Embeds `Tools.extract_elements` of `playwright_web_tool.py`
(lines 238-294).  `attributes` is the comma-separated attribute string,
split and stripped exactly as the code does; `elements` is the list
`page.query_selector_all(selector)` returned, in engine (DOM) order;
the loop runs over `elements[:max_elements]`. -/
def extract_elements (selector attributes : String) (maxElements : Nat)
    (elements : List Elem) : ToolResult :=
  let attrList := splitAttrs attributes
  match extractAll attrList (elements.take maxElements) with
  | .error e =>
    .env [("status", .s "error"), ("error", .s e),
          ("message", .s ("Failed to extract elements: " ++ e))]
  | .ok recs =>
    .env [("status", .s "success"), ("count", .n (recs.length : Int)),
          ("elements", .arr (recs.map JVal.obj))]

/-- Embeds `Tools.take_screenshot` of `playwright_web_tool.py`
(lines 296-350), recording which engine capture call ran.  A truthy
`element_selector` (present and non-empty) selects element mode:
`query_selector` first (`queryRes`), a missing element short-circuits
to the element-not-found envelope (which has no `error` key), otherwise
`element.screenshot` (`elemShotRes`); only a falsy selector reaches
`page.screenshot(full_page=...)` (`pageShotRes`).  `ts` is the
`datetime.now().isoformat()` timestamp. -/
def take_screenshot (fullPage : Bool) (elementSelector : Option String)
    (queryRes : Option Unit)
    (elemShotRes pageShotRes : Except String (List Nat)) (ts : String) :
    ScreenshotCall × ToolResult :=
  let truthy := match elementSelector with
    | none => false
    | some s => if s = "" then false else true
  if truthy then
    let sel := elementSelector.getD ""
    match queryRes with
    | none =>
      (.noCapture,
       .env [("status", .s "error"),
             ("message", .s ("Element not found: " ++ sel))])
    | some _ =>
      match elemShotRes with
      | .error e =>
        (.element sel,
         .env [("status", .s "error"), ("error", .s e),
               ("message", .s ("Screenshot failed: " ++ e))])
      | .ok bytes =>
        (.element sel,
         .env [("status", .s "success"),
               ("image", .s ("data:image/png;base64," ++ b64encode bytes)),
               ("timestamp", .s ts),
               ("message", .s "Screenshot captured")])
  else
    match pageShotRes with
    | .error e =>
      (.page fullPage,
       .env [("status", .s "error"), ("error", .s e),
             ("message", .s ("Screenshot failed: " ++ e))])
    | .ok bytes =>
      (.page fullPage,
       .env [("status", .s "success"),
             ("image", .s ("data:image/png;base64," ++ b64encode bytes)),
             ("timestamp", .s ts),
             ("message", .s "Screenshot captured")])

/-- Embeds `Tools.execute_javascript` of `playwright_web_tool.py`
(lines 352-386).  `evalRes` is the outcome of `page.evaluate(script)`,
`tyName` the Python type name of the evaluated value. -/
def execute_javascript (script : String) (evalRes : Except String JVal)
    (tyName : String) : ToolResult :=
  match evalRes with
  | .error e =>
    .env [("status", .s "error"), ("error", .s e),
          ("message", .s ("JavaScript execution failed: " ++ e))]
  | .ok v =>
    .env [("status", .s "success"), ("result", v),
          ("result_type", .s tyName)]

/-- Embeds `Tools.wait_for_element` of `playwright_web_tool.py`
(lines 388-439): a `PlaywrightTimeoutError` is caught by its own
handler producing the literal `"Timeout"` error kind; every other
exception falls to the generic handler carrying `str(e)`. -/
def wait_for_element (selector state : String) (timeout : Int)
    (waitRes : Except PwErr Unit) : ToolResult :=
  match waitRes with
  | .ok _ =>
    .env [("status", .s "success"),
          ("message", .s ("Element " ++ selector ++ " reached state: " ++ state)),
          ("state", .s state)]
  | .error .timeout =>
    .env [("status", .s "error"), ("error", .s "Timeout"),
          ("message", .s ("Element " ++ selector ++ " did not reach state "
            ++ state ++ " within " ++ toString timeout ++ "ms"))]
  | .error (.other e) =>
    .env [("status", .s "error"), ("error", .s e),
          ("message", .s ("Wait failed: " ++ e))]

/-- Embeds `Tools.search_google` of `playwright_web_tool.py`
(lines 441-501).  `gotoRes` is the outcome of navigating to the built
search URL; `blocks` are the `div.g` result blocks in DOM order; the
loop runs over `blocks[:num_results]`, skipping any block whose
extraction fails or lacks `h3`/`a`. -/
def search_google (query : String) (numResults : Nat)
    (gotoRes : Except String Unit) (blocks : List SearchBlock) :
    ToolResult :=
  match gotoRes with
  | .error e =>
    .env [("status", .s "error"), ("error", .s e),
          ("message", .s ("Google search failed: " ++ e))]
  | .ok _ =>
    let results := (blocks.take numResults).filterMap processBlock
    .env [("status", .s "success"), ("query", .s query),
          ("count", .n (results.length : Int)),
          ("results", .arr (results.map (fun r =>
            .obj [("title", .s r.1), ("url", optStr r.2.1),
                  ("snippet", .s r.2.2)])))]

/-- Embeds `Tools.scroll_page` of `playwright_web_tool.py`
(lines 503-549): the script is chosen by direction and passed to
`page.evaluate` (`evalRes`). -/
def scroll_page (direction : ScrollDir) (evalRes : Except String Unit) :
    ToolResult :=
  let _ := scrollScript direction
  match evalRes with
  | .error e =>
    .env [("status", .s "error"), ("error", .s e),
          ("message", .s ("Scroll failed: " ++ e))]
  | .ok _ =>
    .env [("status", .s "success"),
          ("message", .s ("Scrolled " ++ scrollDirName direction)),
          ("direction", .s (scrollDirName direction))]
where
  scrollDirName : ScrollDir → String
    | .up => "up"
    | .down => "down"
    | .top => "top"
    | .bottom => "bottom"

end WebTool

namespace SearchTool

/-- Embeds `Tools._ensure_browser` of `playwright_web_search_tool.py`
(lines 69-94): the same four guarded lazy-init branches as the other
variants (the extra context options — user agent, JavaScript flag,
navigation timeout — only parametrize the engine call and are
abstracted away with the resources). -/
def ensure_browser (supply : Nat) (h : Handle) :
    Handle × Nat × EngineCounts :=
  let (pw, s1, c1) :=
    match h.playwright with
    | some x => (x, supply, 0)
    | none => (supply, supply + 1, 1)
  let (br, s2, c2) :=
    match h.browser with
    | some x => (x, s1, 0)
    | none => (s1, s1 + 1, 1)
  let (ctx, s3, c3) :=
    match h.context with
    | some x => (x, s2, 0)
    | none => (s2, s2 + 1, 1)
  let (pg, s4, c4) :=
    match h.page with
    | some x => (x, s3, 0)
    | none => (s3, s3 + 1, 1)
  (⟨some pw, some br, some ctx, some pg⟩, s4, ⟨c1, c2, c3, c4⟩)

/-- The content kinds `get_page_content` accepts. -/
inductive ContentType where
  | html | text | title | url
deriving DecidableEq, Repr

/-- Embeds `Tools.get_page_content` of `playwright_web_search_tool.py`
(lines 131-162): the requested content is returned directly as the raw
string on success; only the failure path produces an envelope (which
does carry a `message`). -/
def get_page_content (contentType : ContentType)
    (htmlRes evalTextRes titleRes : Except String String)
    (pageUrl : String) : ToolResult :=
  let fetched : Except String String :=
    match contentType with
    | .html => htmlRes
    | .text => evalTextRes
    | .title => titleRes
    | .url => .ok pageUrl
  match fetched with
  | .ok c => .raw c
  | .error e =>
    .env [("status", .s "error"), ("error", .s e),
          ("message", .s ("Failed to get page content: " ++ e))]

/-- The generic `except` envelope of the search variant's
`click_element`. -/
def clickErr (selector e : String) : ToolResult :=
  .env [("status", .s "error"), ("error", .s e),
        ("message", .s ("Failed to click element " ++ selector ++ ": " ++ e))]

/-- Embeds `Tools.click_element` of `playwright_web_search_tool.py`
(lines 164-206), with its engine-event trace.  Identical navigation
ordering to the other variants (`async with expect_navigation():`
entered before the click is dispatched); additionally forwards a click
timeout and serializes `new_url` as `null` when no navigation was
requested. -/
def click_element (selector : String) (waitForNavigation : Bool)
    (timeout : Int) (clickRes navRes : Except String Unit)
    (postUrl : String) : List EngineEvent × ToolResult :=
  let _ := timeout
  if waitForNavigation then
    match clickRes with
    | .error e => ([.beginWaitNav, .clickCall selector], clickErr selector e)
    | .ok _ =>
      match navRes with
      | .error e =>
        ([.beginWaitNav, .clickCall selector, .awaitNav], clickErr selector e)
      | .ok _ =>
        ([.beginWaitNav, .clickCall selector, .awaitNav],
         .env [("status", .s "success"),
               ("message", .s ("Successfully clicked element: " ++ selector)),
               ("navigated", .b true), ("new_url", .s postUrl)])
  else
    match clickRes with
    | .error e => ([.clickCall selector], clickErr selector e)
    | .ok _ =>
      ([.clickCall selector],
       .env [("status", .s "success"),
             ("message", .s ("Successfully clicked element: " ++ selector)),
             ("navigated", .b false), ("new_url", .null)])

/-- Embeds `Tools.extract_elements` of `playwright_web_search_tool.py`
(lines 243-289): same loops as the other variants, but `attributes`
arrives as a list (no splitting) and the success envelope carries a
`message`. -/
def extract_elements (selector : String) (attributes : List String)
    (maxElements : Nat) (elements : List Elem) : ToolResult :=
  match extractAll attributes (elements.take maxElements) with
  | .error e =>
    .env [("status", .s "error"), ("error", .s e),
          ("message", .s ("Failed to extract elements: " ++ e))]
  | .ok recs =>
    .env [("status", .s "success"), ("count", .n (recs.length : Int)),
          ("elements", .arr (recs.map JVal.obj)),
          ("message", .s ("Extracted " ++ toString recs.length ++ " elements"))]

/-- The screenshot-cache insertion of `take_screenshot`
(`playwright_web_search_tool.py` lines 328-330):
`if len(cache) >= MAX_SCREENSHOTS: cache.pop(0)` then
`cache.append(data_uri)`.  `pop(0)` on an empty list raises
`IndexError` (reachable only with `MAX_SCREENSHOTS = 0`), which the
operation's generic handler would catch. -/
def cacheInsert (maxScreenshots : Nat) (cache : List String)
    (item : String) : Except String (List String) :=
  if cache.length ≥ maxScreenshots then
    match cache with
    | [] => .error "pop from empty list"
    | _ :: rest => .ok (rest ++ [item])
  else .ok (cache ++ [item])

/-- Embeds `Tools.take_screenshot` of `playwright_web_search_tool.py`
(lines 291-343): the same element-mode precedence as the other
variants, plus the bounded FIFO screenshot cache — after a successful
capture the data URI is inserted via `cacheInsert` and the updated
cache returned with the result.  `maxScreenshots` is the
`MAX_SCREENSHOTS` valve (default 5). -/
def take_screenshot (maxScreenshots : Nat) (cache : List String)
    (fullPage : Bool) (elementSelector : Option String)
    (queryRes : Option Unit)
    (elemShotRes pageShotRes : Except String (List Nat)) (ts : String) :
    List String × ScreenshotCall × ToolResult :=
  let truthy := match elementSelector with
    | none => false
    | some s => if s = "" then false else true
  if truthy then
    let sel := elementSelector.getD ""
    match queryRes with
    | none =>
      (cache, .noCapture,
       .env [("status", .s "error"),
             ("message", .s ("Element not found: " ++ sel))])
    | some _ => finish cache (.element sel) elemShotRes
  else finish cache (.page fullPage) pageShotRes
where
  /-- Shared tail after the capture: base64 data URI, cache insertion,
  success envelope; a raising step falls to the generic handler. -/
  finish (cache : List String) (call : ScreenshotCall)
      (shotRes : Except String (List Nat)) :
      List String × ScreenshotCall × ToolResult :=
    match shotRes with
    | .error e =>
      (cache, call,
       .env [("status", .s "error"), ("error", .s e),
             ("message", .s ("Failed to take screenshot: " ++ e))])
    | .ok bytes =>
      let uri := "data:image/png;base64," ++ b64encode bytes
      match cacheInsert maxScreenshots cache uri with
      | .error e =>
        (cache, call,
         .env [("status", .s "error"), ("error", .s e),
               ("message", .s ("Failed to take screenshot: " ++ e))])
      | .ok newCache =>
        (newCache, call,
         .env [("status", .s "success"), ("image", .s uri),
               ("timestamp", .s ts),
               ("message", .s "Screenshot captured successfully")])

/-- Embeds `Tools.wait_for_element` of `playwright_web_search_tool.py`
(lines 383-422): identical handler structure to the other variants —
the timeout handler emits the literal `"Timeout"` kind, the generic
handler carries `str(e)` with a `"Failed to wait for element"`
message. -/
def wait_for_element (selector state : String) (timeout : Int)
    (waitRes : Except PwErr Unit) : ToolResult :=
  match waitRes with
  | .ok _ =>
    .env [("status", .s "success"),
          ("message", .s ("Element " ++ selector ++ " reached state: " ++ state)),
          ("state", .s state)]
  | .error .timeout =>
    .env [("status", .s "error"), ("error", .s "Timeout"),
          ("message", .s ("Element " ++ selector ++ " did not reach state "
            ++ state ++ " within " ++ toString timeout ++ "ms"))]
  | .error (.other e) =>
    .env [("status", .s "error"), ("error", .s e),
          ("message", .s ("Failed to wait for element: " ++ e))]

end SearchTool

/-- The value of one key of a structured result (`none` for raw
results and missing keys). -/
def envKey (r : ToolResult) (k : String) : Option JVal :=
  match r with
  | .raw _ => none
  | .env kvs => lookupKey kvs k

/-- A structured error result carrying the raw failure description
`e` in its `error` field. -/
def isErrorEnvelope (r : ToolResult) (e : String) : Prop :=
  envKey r "status" = some (.s "error") ∧ envKey r "error" = some (.s e)

/-- The result carries a human-readable `message` field. -/
def hasMessage (r : ToolResult) : Prop :=
  (envKey r "message").isSome = true

/-- In trace `tr`, a navigation wait begins strictly before the click
on `sel` is dispatched. -/
def waitsBeforeClick (tr : List EngineEvent) (sel : String) : Prop :=
  ∃ i j, i < j ∧ tr.get? i = some .beginWaitNav ∧
    tr.get? j = some (.clickCall sel)

/-- A well-behaved element: every read succeeds. -/
def sampleElem : Elem :=
  ⟨.ok "a", .ok "<b>a</b>", fun _ => .ok none⟩

/-- An element on which every read raises. -/
def failElem : Elem :=
  ⟨.error "boom", .error "boom", fun _ => .error "boom"⟩

/-- If every element of `l` extracts to `f el`, the extraction loop
succeeds with the records in list order. -/
theorem extractAll_map (attrs : List String) (f : Elem → List (String × JVal)) :
    ∀ l : List Elem, (∀ el ∈ l, extractOne attrs el = .ok (f el)) →
      extractAll attrs l = .ok (l.map f)
  | [], _ => rfl
  | el :: rest, h => by
    have hel : extractOne attrs el = .ok (f el) := h el (List.mem_cons_self el rest)
    have hrest := extractAll_map attrs f rest
      (fun x hx => h x (List.mem_cons_of_mem el hx))
    simp [extractAll, hel, hrest]

/-- A raising read anywhere in the element list aborts the whole
extraction loop with that exception, discarding the records already
built for the leading elements. -/
theorem extractAll_append_error (attrs : List String) (bad : Elem) (e : String)
    (hb : extractOne attrs bad = .error e) :
    ∀ (l1 : List Elem) (r1 : List (List (String × JVal))),
      extractAll attrs l1 = .ok r1 →
      ∀ l2 : List Elem, extractAll attrs (l1 ++ bad :: l2) = .error e
  | [], _, _, l2 => by simp [extractAll, hb]
  | el :: rest, r1, h1, l2 => by
    simp only [extractAll] at h1
    rcases hel : extractOne attrs el with e0 | d
    · rw [hel] at h1; exact absurd h1 (by simp)
    · rw [hel] at h1
      rcases hrest : extractAll attrs rest with e0 | ds
    /- the leading extraction succeeded element-wise, so recurse -/
      · rw [hrest] at h1; exact absurd h1 (by simp)
      · have := extractAll_append_error attrs bad e hb rest ds hrest l2
        simp [extractAll, hel, this]

/-- Claim C3: `_ensure_browser` is idempotent — on a fully empty handle
it constructs driver, browser, context and page exactly once each
(consuming four fresh resource identifiers), and on a handle where all
four already exist it constructs nothing and leaves the handle and the
identifier supply unchanged; this holds for both the web-tool and the
web-search variants. -/
theorem ensure_browser_idempotent (s a b c d : Nat) :
    WebTool.ensure_browser s ⟨none, none, none, none⟩ =
      (⟨some s, some (s + 1), some (s + 2), some (s + 3)⟩, s + 4, ⟨1, 1, 1, 1⟩) ∧
    WebTool.ensure_browser s ⟨some a, some b, some c, some d⟩ =
      (⟨some a, some b, some c, some d⟩, s, ⟨0, 0, 0, 0⟩) ∧
    SearchTool.ensure_browser s ⟨none, none, none, none⟩ =
      (⟨some s, some (s + 1), some (s + 2), some (s + 3)⟩, s + 4, ⟨1, 1, 1, 1⟩) ∧
    SearchTool.ensure_browser s ⟨some a, some b, some c, some d⟩ =
      (⟨some a, some b, some c, some d⟩, s, ⟨0, 0, 0, 0⟩) :=
  ⟨rfl, rfl, rfl, rfl⟩

/-- Counterexample to claim C1: on a fully initialized handle, when
`page.close()` raises, `close_browser` returns the error envelope with
every field still set — the page release was attempted yet the page
field is not null, and the context, browser and driver releases are
skipped entirely. -/
theorem close_browser_abort_counterexample :
    WebTool.close_browser ⟨some 0, some 1, some 2, some 3⟩
        (.error "boom") (.ok ()) (.ok ()) (.ok ()) =
      (⟨some 0, some 1, some 2, some 3⟩, WebTool.cleanupErr "boom") ∧
    (WebTool.close_browser ⟨some 0, some 1, some 2, some 3⟩
        (.error "boom") (.ok ()) (.ok ()) (.ok ())).1.page ≠ none :=
  ⟨rfl, by decide⟩

/-- Claim C1 as amended: `close_browser` attempts the releases in
strict reverse order (page, context, browser, driver) and nulls each
field whose release succeeded, but the single surrounding handler means
the first raising release aborts the sequence — that field and all
later ones keep their values while the error envelope is returned.
When no release raises, all four fields are null afterwards. -/
theorem close_browser_best_effort_amended (p b c g : Nat) (e : String)
    (cc bc ps : Except String Unit) :
    WebTool.close_browser ⟨some p, some b, some c, some g⟩
        (.ok ()) (.ok ()) (.ok ()) (.ok ()) =
      (⟨none, none, none, none⟩,
       .env [("status", .s "success"),
             ("message", .s "Browser closed and resources cleaned up")]) ∧
    WebTool.close_browser ⟨some p, some b, some c, some g⟩
        (.error e) cc bc ps =
      (⟨some p, some b, some c, some g⟩, WebTool.cleanupErr e) ∧
    WebTool.close_browser ⟨some p, some b, some c, some g⟩
        (.ok ()) (.error e) bc ps =
      (⟨some p, some b, some c, none⟩, WebTool.cleanupErr e) ∧
    WebTool.close_browser ⟨some p, some b, some c, some g⟩
        (.ok ()) (.ok ()) (.error e) ps =
      (⟨some p, some b, none, none⟩, WebTool.cleanupErr e) ∧
    WebTool.close_browser ⟨some p, some b, some c, some g⟩
        (.ok ()) (.ok ()) (.ok ()) (.error e) =
      (⟨some p, none, none, none⟩, WebTool.cleanupErr e) :=
  ⟨rfl, rfl, rfl, rfl, rfl⟩

/-- Claim C6: for both variants, a `PlaywrightTimeoutError` from the
element wait is reported through the dedicated handler as the literal
`"Timeout"` error kind, while any other exception takes the generic
handler carrying `str(e)` and a different message scheme. -/
theorem wait_for_element_timeout_distinct (sel st e : String) (t : Int) :
    WebTool.wait_for_element sel st t (.error .timeout) =
      .env [("status", .s "error"), ("error", .s "Timeout"),
            ("message", .s ("Element " ++ sel ++ " did not reach state "
              ++ st ++ " within " ++ toString t ++ "ms"))] ∧
    WebTool.wait_for_element sel st t (.error (.other e)) =
      .env [("status", .s "error"), ("error", .s e),
            ("message", .s ("Wait failed: " ++ e))] ∧
    SearchTool.wait_for_element sel st t (.error .timeout) =
      .env [("status", .s "error"), ("error", .s "Timeout"),
            ("message", .s ("Element " ++ sel ++ " did not reach state "
              ++ st ++ " within " ++ toString t ++ "ms"))] ∧
    SearchTool.wait_for_element sel st t (.error (.other e)) =
      .env [("status", .s "error"), ("error", .s e),
            ("message", .s ("Failed to wait for element: " ++ e))] :=
  ⟨rfl, rfl, rfl, rfl⟩

/-- Claim C5: for both variants, a click with `wait_for_navigation`
enters `expect_navigation()` (beginning the navigation wait) strictly
before dispatching the click — for every engine outcome — and on
success the envelope reports the post-navigation URL. -/
theorem click_waits_before_dispatch (sel u : String) (t : Int)
    (cr nr : Except String Unit) :
    waitsBeforeClick (WebTool.click_element sel true cr nr u).1 sel ∧
    WebTool.click_element sel true (.ok ()) (.ok ()) u =
      ([.beginWaitNav, .clickCall sel, .awaitNav],
       .env [("status", .s "success"),
             ("message", .s ("Clicked " ++ sel ++ " and navigated")),
             ("navigated", .b true), ("new_url", .s u)]) ∧
    waitsBeforeClick (SearchTool.click_element sel true t cr nr u).1 sel ∧
    SearchTool.click_element sel true t (.ok ()) (.ok ()) u =
      ([.beginWaitNav, .clickCall sel, .awaitNav],
       .env [("status", .s "success"),
             ("message", .s ("Successfully clicked element: " ++ sel)),
             ("navigated", .b true), ("new_url", .s u)]) := by
  refine ⟨?_, rfl, ?_, rfl⟩
  · cases cr with
    | error e0 => exact ⟨0, 1, Nat.zero_lt_one, rfl, rfl⟩
    | ok v =>
      cases nr with
      | error e0 => exact ⟨0, 1, Nat.zero_lt_one, rfl, rfl⟩
      | ok w => exact ⟨0, 1, Nat.zero_lt_one, rfl, rfl⟩
  · cases cr with
    | error e0 => exact ⟨0, 1, Nat.zero_lt_one, rfl, rfl⟩
    | ok v =>
      cases nr with
      | error e0 => exact ⟨0, 1, Nat.zero_lt_one, rfl, rfl⟩
      | ok w => exact ⟨0, 1, Nat.zero_lt_one, rfl, rfl⟩

/-- The screenshot-cache insertion always succeeds under the intended
configuration (positive capacity, cache within capacity), appends the
new item at the end, stays within capacity, and evicts exactly the
oldest entry when the cache is full. -/
theorem cacheInsert_fifo (maxN : Nat) (cache : List String) (u : String)
    (hpos : 0 < maxN) (hlen : cache.length ≤ maxN) :
    ∃ c2, SearchTool.cacheInsert maxN cache u = .ok c2 ∧
      c2.length ≤ maxN ∧ c2.getLast? = some u ∧
      (cache.length = maxN → c2 = cache.drop 1 ++ [u]) ∧
      (cache.length < maxN → c2 = cache ++ [u]) := by
  by_cases hge : maxN ≤ cache.length
  · have heq : cache.length = maxN := Nat.le_antisymm hlen hge
    rcases cache with _ | ⟨a, rest⟩
    · exact absurd heq.symm (Nat.ne_of_gt hpos)
    · refine ⟨rest ++ [u], ?_, ?_, List.getLast?_concat _, fun _ => rfl, ?_⟩
      · simp [SearchTool.cacheInsert, heq]
      · have hl : rest.length + 1 = maxN := by simpa using heq
        simpa using hl.le
      · intro hlt; exact absurd heq (Nat.ne_of_lt hlt)
  · have hlt : cache.length < maxN := Nat.lt_of_not_le hge
    refine ⟨cache ++ [u], ?_, ?_, List.getLast?_concat _, ?_, fun _ => rfl⟩
    · simp [SearchTool.cacheInsert, Nat.not_le.mpr hlt]
    · simpa using hlt
    · intro heq; exact absurd heq (Nat.ne_of_lt hlt)

/-- Claim C9: the screenshot cache of the search variant is a bounded
FIFO buffer — a successful `take_screenshot` appends the new data URI
at the end, the cache never exceeds `MAX_SCREENSHOTS`, and when the
cache is full the oldest (first) entry is evicted to make room. -/
theorem screenshot_cache_fifo (maxN : Nat) (cache : List String)
    (ts : String) (bytes : List Nat) (fullPage : Bool)
    (hpos : 0 < maxN) (hlen : cache.length ≤ maxN) :
    ((SearchTool.take_screenshot maxN cache fullPage none none
        (.error "") (.ok bytes) ts).1).length ≤ maxN ∧
    ((SearchTool.take_screenshot maxN cache fullPage none none
        (.error "") (.ok bytes) ts).1).getLast? =
      some ("data:image/png;base64," ++ b64encode bytes) ∧
    (cache.length = maxN →
      (SearchTool.take_screenshot maxN cache fullPage none none
        (.error "") (.ok bytes) ts).1 =
        cache.drop 1 ++ ["data:image/png;base64," ++ b64encode bytes]) ∧
    (cache.length < maxN →
      (SearchTool.take_screenshot maxN cache fullPage none none
        (.error "") (.ok bytes) ts).1 =
        cache ++ ["data:image/png;base64," ++ b64encode bytes]) ∧
    (SearchTool.take_screenshot maxN cache fullPage none none
        (.error "") (.ok bytes) ts).2.2 =
      .env [("status", .s "success"),
            ("image", .s ("data:image/png;base64," ++ b64encode bytes)),
            ("timestamp", .s ts),
            ("message", .s "Screenshot captured successfully")] := by
  obtain ⟨c2, hc2, hle, hlast, hfull, hroom⟩ :=
    cacheInsert_fifo maxN cache ("data:image/png;base64," ++ b64encode bytes)
      hpos hlen
  have hrun : SearchTool.take_screenshot maxN cache fullPage none none
      (.error "") (.ok bytes) ts =
      (c2, .page fullPage,
       .env [("status", .s "success"),
             ("image", .s ("data:image/png;base64," ++ b64encode bytes)),
             ("timestamp", .s ts),
             ("message", .s "Screenshot captured successfully")]) := by
    simp [SearchTool.take_screenshot, SearchTool.take_screenshot.finish, hc2]
  rw [hrun]
  exact ⟨hle, hlast, hfull, hroom, rfl⟩

/-- Witness for C9 at capacity 2 with a full cache: the oldest entry
"a" is evicted, the new data URI lands at the end, and the bound
holds. -/
theorem screenshot_cache_fifo_witness :
    ((SearchTool.take_screenshot 2 ["a", "b"] false none none
        (.error "") (.ok [0]) "t").1).length ≤ 2 ∧
    (SearchTool.take_screenshot 2 ["a", "b"] false none none
        (.error "") (.ok [0]) "t").1 =
      ["a", "b"].drop 1 ++ ["data:image/png;base64," ++ b64encode [0]] :=
  ⟨(screenshot_cache_fifo 2 ["a", "b"] "t" [0] false (by decide) (by decide)).1,
   (screenshot_cache_fifo 2 ["a", "b"] "t" [0] false (by decide) (by decide)).2.2.1
     rfl⟩

/-- Claim C7: in both variants, element mode wins over full-page mode —
with `full_page` set and a non-empty `element_selector`, the engine
call performed is the element capture; and a selector matching nothing
yields the distinct element-not-found envelope with no capture at
all. -/
theorem screenshot_element_precedence (s ts : String) (bytes : List Nat)
    (elemRes pageRes : Except String (List Nat)) (fullPage : Bool)
    (maxN : Nat) (cache : List String) (hs : s ≠ "") :
    WebTool.take_screenshot fullPage (some s) (some ()) (.ok bytes) pageRes ts =
      (.element s,
       .env [("status", .s "success"),
             ("image", .s ("data:image/png;base64," ++ b64encode bytes)),
             ("timestamp", .s ts),
             ("message", .s "Screenshot captured")]) ∧
    WebTool.take_screenshot fullPage (some s) none elemRes pageRes ts =
      (.noCapture,
       .env [("status", .s "error"),
             ("message", .s ("Element not found: " ++ s))]) ∧
    (SearchTool.take_screenshot maxN cache fullPage (some s) (some ())
        (.ok bytes) pageRes ts).2.1 = .element s ∧
    (SearchTool.take_screenshot maxN cache fullPage (some s) none
        elemRes pageRes ts).2 =
      (.noCapture,
       .env [("status", .s "error"),
             ("message", .s ("Element not found: " ++ s))]) := by
  refine ⟨?_, ?_, ?_, ?_⟩
  · simp [WebTool.take_screenshot, hs]
  · simp [WebTool.take_screenshot, hs]
  · rcases hins : SearchTool.cacheInsert maxN cache
        ("data:image/png;base64," ++ b64encode bytes) with e0 | c2 <;>
      simp [SearchTool.take_screenshot, SearchTool.take_screenshot.finish,
        hs, hins]
  · simp [SearchTool.take_screenshot, hs]

/-- Witness for C7: a concrete non-empty selector with `full_page=true`
captures only the element, and the same selector matching nothing
produces the element-not-found envelope. -/
theorem screenshot_element_precedence_witness :
    WebTool.take_screenshot true (some "x") (some ()) (.ok [0]) (.ok []) "t" =
      (.element "x",
       .env [("status", .s "success"),
             ("image", .s ("data:image/png;base64," ++ b64encode [0])),
             ("timestamp", .s "t"),
             ("message", .s "Screenshot captured")]) ∧
    WebTool.take_screenshot true (some "x") none (.ok [0]) (.ok []) "t" =
      (.noCapture,
       .env [("status", .s "error"),
             ("message", .s ("Element not found: " ++ "x"))]) :=
  ⟨(screenshot_element_precedence "x" "t" [0] (.ok [0]) (.ok []) true 5 []
      (by decide)).1,
   (screenshot_element_precedence "x" "t" [0] (.ok [0]) (.ok []) true 5 []
      (by decide)).2.1⟩

/-- Claim C8: in both variants, when every matched element extracts
cleanly, `extract_elements` with `max_elements=N` over M matches
returns exactly min(N, M) element records, in the order the engine
returned the matches (the records are the image of the first
min(N, M) elements, in list order). -/
theorem extract_elements_truncates (sel sel2 attributes : String)
    (attrs2 : List String) (N : Nat) (elements elements2 : List Elem)
    (f f2 : Elem → List (String × JVal))
    (h1 : ∀ el ∈ elements,
      extractOne (splitAttrs attributes) el = .ok (f el))
    (h2 : ∀ el ∈ elements2, extractOne attrs2 el = .ok (f2 el)) :
    WebTool.extract_elements sel attributes N elements =
      .env [("status", .s "success"),
            ("count", .n ((min N elements.length : Nat) : Int)),
            ("elements", .arr (((elements.take N).map f).map JVal.obj))] ∧
    SearchTool.extract_elements sel2 attrs2 N elements2 =
      .env [("status", .s "success"),
            ("count", .n ((min N elements2.length : Nat) : Int)),
            ("elements", .arr (((elements2.take N).map f2).map JVal.obj)),
            ("message", .s ("Extracted " ++ toString (min N elements2.length)
              ++ " elements"))] := by
  have hA := extractAll_map (splitAttrs attributes) f
    (elements.take N) (fun el hel => h1 el (List.take_subset N elements hel))
  have hB := extractAll_map attrs2 f2
    (elements2.take N) (fun el hel => h2 el (List.take_subset N elements2 hel))
  constructor
  · simp [WebTool.extract_elements, hA, List.length_take]
  · simp [SearchTool.extract_elements, hB, List.length_take]

/-- Witness for C8: three well-behaved matches, `max_elements=2`,
attribute list "text" — exactly two records come back, in order. -/
theorem extract_elements_truncates_witness :
    WebTool.extract_elements "a.x" "text" 2 (List.replicate 3 sampleElem) =
      .env [("status", .s "success"), ("count", .n 2),
            ("elements", .arr [.obj [("text", .s "a")],
                               .obj [("text", .s "a")]])] :=
  (extract_elements_truncates "a.x" "a.x" "text" ["text"] 2
    (List.replicate 3 sampleElem) [] (fun _ => [("text", .s "a")])
    (fun _ => [])
    (fun el hel => by rw [List.eq_of_mem_replicate hel]; rfl)
    (fun el hel => by simp at hel)).1

/-- Claim C10: in all variants, a raising attribute read on any single
matched element within the extraction window makes the whole
`extract_elements` call return the error envelope — the records already
built for the leading elements are discarded, never returned (while, by
contrast, the composed `search_google` skips a failing result block and
keeps the rest). -/
theorem extract_elements_aborts_whole (sel sel2 attributes e q ebad : String)
    (attrs2 : List String) (N : Nat) (l1 l2 : List Elem) (bad : Elem)
    (r1 r2 : List (List (String × JVal)))
    (h1 : extractAll (splitAttrs attributes) l1 = .ok r1)
    (hb : extractOne (splitAttrs attributes) bad = .error e)
    (h2 : extractAll attrs2 l1 = .ok r2)
    (hb2 : extractOne attrs2 bad = .error e)
    (hN : l1.length < N) :
    WebTool.extract_elements sel attributes N (l1 ++ bad :: l2) =
      .env [("status", .s "error"), ("error", .s e),
            ("message", .s ("Failed to extract elements: " ++ e))] ∧
    SearchTool.extract_elements sel2 attrs2 N (l1 ++ bad :: l2) =
      .env [("status", .s "error"), ("error", .s e),
            ("message", .s ("Failed to extract elements: " ++ e))] ∧
    WebTool.search_google q 10 (.ok ())
        [⟨some (.ok "T"), some (.ok (some "u")), none⟩,
         ⟨some (.error ebad), some (.ok none), none⟩] =
      .env [("status", .s "success"), ("query", .s q), ("count", .n 1),
            ("results", .arr [.obj [("title", .s "T"),
                                    ("url", optStr (some "u")),
                                    ("snippet", .s "")]])] := by
  obtain ⟨m, hm⟩ := Nat.exists_eq_succ_of_ne_zero (Nat.sub_ne_zero_of_lt hN)
  have htake : (l1 ++ bad :: l2).take N = l1 ++ bad :: l2.take m := by
    rw [List.take_append_eq_append_take,
      List.take_of_length_le (Nat.le_of_lt hN), hm, List.take_succ_cons]
  refine ⟨?_, ?_, rfl⟩
  · have hE := extractAll_append_error
      (splitAttrs attributes) bad e hb l1 r1 h1 (l2.take m)
    simp [WebTool.extract_elements, htake, hE]
  · have hE := extractAll_append_error attrs2 bad e hb2 l1 r2 h2 (l2.take m)
    simp [SearchTool.extract_elements, htake, hE]

/-- Witness for C10: one clean leading element, then an element whose
text read raises — the whole call errors, the leading record is
dropped. -/
theorem extract_elements_aborts_whole_witness :
    WebTool.extract_elements "a.x" "text" 3 ([sampleElem] ++ failElem :: [sampleElem]) =
      .env [("status", .s "error"), ("error", .s "boom"),
            ("message", .s ("Failed to extract elements: " ++ "boom"))] :=
  (extract_elements_aborts_whole "a.x" "a.x" "text" "boom" "q" "x" ["text"] 3
    [sampleElem] [sampleElem] failElem [[("text", .s "a")]] [[("text", .s "a")]]
    rfl rfl rfl rfl (by decide)).1

/-- An element on which every read raises with message `e`. -/
def raisingElem (e : String) : Elem :=
  ⟨.error e, .error e, fun _ => .error e⟩

/-- A structured error result carrying the raw failure description and
a human-readable message. -/
def errorEnvelopeWithMessage (r : ToolResult) (e : String) : Prop :=
  isErrorEnvelope r e ∧ hasMessage r

/-- Counterexample to claim C2: when the text evaluation raises,
`get_page_text` returns an envelope holding only the status marker and
the raw failure description — the human-readable `message` field the
claim requires for every operation is absent. -/
theorem get_page_text_error_envelope_counterexample :
    WebTool.get_page_text (.error "boom") =
      .env [("status", .s "error"), ("error", .s "boom")] ∧
    envKey (WebTool.get_page_text (.error "boom")) "message" = none :=
  ⟨rfl, rfl⟩

/-- Claim C2 as amended: every operation catches every exception of its
delegated engine calls and returns a structured error envelope with
status `"error"` and the raw failure description in its `error` field
(in the embedding all operations are total functions, so no failure
escapes an operation); every operation except the page-text and
page-HTML getters also includes a human-readable `message` field, while
those two getters omit it. -/
theorem operations_error_envelope_amended :
    (∀ url wu tr fu e, errorEnvelopeWithMessage
      (WebTool.navigate_to_url url wu (.error e) tr fu) e) ∧
    (∀ url wu sc fu e, errorEnvelopeWithMessage
      (WebTool.navigate_to_url url wu (.ok sc) (.error e) fu) e) ∧
    (∀ e, isErrorEnvelope (WebTool.get_page_text (.error e)) e ∧
      envKey (WebTool.get_page_text (.error e)) "message" = none) ∧
    (∀ e, isErrorEnvelope (WebTool.get_page_html (.error e)) e ∧
      envKey (WebTool.get_page_html (.error e)) "message" = none) ∧
    (∀ sel u nr e, errorEnvelopeWithMessage
      (WebTool.click_element sel true (.error e) nr u).2 e) ∧
    (∀ sel u e, errorEnvelopeWithMessage
      (WebTool.click_element sel false (.error e) (.ok ()) u).2 e) ∧
    (∀ sel val sub pr e, errorEnvelopeWithMessage
      (WebTool.fill_input sel val sub (.error e) pr) e) ∧
    (∀ sel val e, errorEnvelopeWithMessage
      (WebTool.fill_input sel val true (.ok ()) (.error e)) e) ∧
    (∀ sel e, errorEnvelopeWithMessage
      (WebTool.extract_elements sel "text" 5 [raisingElem e]) e) ∧
    (∀ fp pr ts e, errorEnvelopeWithMessage
      (WebTool.take_screenshot fp (some "x") (some ()) (.error e) pr ts).2 e) ∧
    (∀ fp qr er ts e, errorEnvelopeWithMessage
      (WebTool.take_screenshot fp none qr er (.error e) ts).2 e) ∧
    (∀ scpt ty e, errorEnvelopeWithMessage
      (WebTool.execute_javascript scpt (.error e) ty) e) ∧
    (∀ sel st t e, errorEnvelopeWithMessage
      (WebTool.wait_for_element sel st t (.error (.other e))) e) ∧
    (∀ q n blocks e, errorEnvelopeWithMessage
      (WebTool.search_google q n (.error e) blocks) e) ∧
    (∀ d e, errorEnvelopeWithMessage (WebTool.scroll_page d (.error e)) e) ∧
    (∀ cc bc ps e, errorEnvelopeWithMessage
      (WebTool.close_browser ⟨some 0, some 1, some 2, some 3⟩
        (.error e) cc bc ps).2 e) ∧
    (∀ ev tr pu e, errorEnvelopeWithMessage
      (SearchTool.get_page_content .html (.error e) ev tr pu) e) ∧
    (∀ sel t u nr e, errorEnvelopeWithMessage
      (SearchTool.click_element sel true t (.error e) nr u).2 e) ∧
    (∀ sel e, errorEnvelopeWithMessage
      (SearchTool.extract_elements sel ["text"] 5 [raisingElem e]) e) ∧
    (∀ mx cache fp pr ts e, errorEnvelopeWithMessage
      (SearchTool.take_screenshot mx cache fp (some "x") (some ())
        (.error e) pr ts).2.2 e) ∧
    (∀ sel st t e, errorEnvelopeWithMessage
      (SearchTool.wait_for_element sel st t (.error (.other e))) e) := by
  refine ⟨?_, ?_, ?_, ?_, ?_, ?_, ?_, ?_, ?_, ?_, ?_, ?_, ?_, ?_, ?_, ?_,
    ?_, ?_, ?_, ?_, ?_⟩ <;> intros
  all_goals exact ⟨⟨rfl, rfl⟩, rfl⟩

/-- Counterexample to claim C4: on success `get_page_text` returns the
raw page text directly — not a structured record, and with no status
discriminator at all. -/
theorem get_page_text_raw_success_counterexample :
    WebTool.get_page_text (.ok "hello") = .raw "hello" ∧
    isStructuredStatus (WebTool.get_page_text (.ok "hello")) = false ∧
    envStatus (WebTool.get_page_text (.ok "hello")) = none :=
  ⟨rfl, rfl, rfl⟩

/-- Claim C4 as amended: for every operation and every outcome the
returned value is a single structured record whose status discriminator
is `"success"` or `"error"` — except the content getters
(`get_page_text`, `get_page_html` and the search variant's
`get_page_content`), which return the raw content string on success
and a structured error record only on failure. -/
theorem operations_structured_status_amended :
    (∀ url wu gr tr fu,
      isStructuredStatus (WebTool.navigate_to_url url wu gr tr fu) = true) ∧
    (∀ t, WebTool.get_page_text (.ok t) = .raw t) ∧
    (∀ e, isStructuredStatus (WebTool.get_page_text (.error e)) = true) ∧
    (∀ t, WebTool.get_page_html (.ok t) = .raw t) ∧
    (∀ e, isStructuredStatus (WebTool.get_page_html (.error e)) = true) ∧
    (∀ sel w cr nr u,
      isStructuredStatus (WebTool.click_element sel w cr nr u).2 = true) ∧
    (∀ sel val sub fr pr,
      isStructuredStatus (WebTool.fill_input sel val sub fr pr) = true) ∧
    (∀ sel attributes n els,
      isStructuredStatus (WebTool.extract_elements sel attributes n els) = true) ∧
    (∀ fp esel qr er pr ts,
      isStructuredStatus (WebTool.take_screenshot fp esel qr er pr ts).2 = true) ∧
    (∀ scpt er ty,
      isStructuredStatus (WebTool.execute_javascript scpt er ty) = true) ∧
    (∀ sel st t wr,
      isStructuredStatus (WebTool.wait_for_element sel st t wr) = true) ∧
    (∀ q n gr blocks,
      isStructuredStatus (WebTool.search_google q n gr blocks) = true) ∧
    (∀ d er, isStructuredStatus (WebTool.scroll_page d er) = true) ∧
    (∀ h pc cc bc ps,
      isStructuredStatus (WebTool.close_browser h pc cc bc ps).2 = true) ∧
    (∀ hr tr pu c,
      SearchTool.get_page_content .text hr (.ok c) tr pu = .raw c) ∧
    (∀ hr ev tr pu,
      SearchTool.get_page_content .url hr ev tr pu = .raw pu) ∧
    (∀ hr ev tr pu ct,
      (∃ c, SearchTool.get_page_content ct hr ev tr pu = .raw c) ∨
        isStructuredStatus (SearchTool.get_page_content ct hr ev tr pu) = true) ∧
    (∀ sel w t cr nr u,
      isStructuredStatus (SearchTool.click_element sel w t cr nr u).2 = true) ∧
    (∀ sel attrs n els,
      isStructuredStatus (SearchTool.extract_elements sel attrs n els) = true) ∧
    (∀ mx cache fp esel qr er pr ts,
      isStructuredStatus
        (SearchTool.take_screenshot mx cache fp esel qr er pr ts).2.2 = true) ∧
    (∀ sel st t wr,
      isStructuredStatus (SearchTool.wait_for_element sel st t wr) = true) := by
  refine ⟨?_, ?_, ?_, ?_, ?_, ?_, ?_, ?_, ?_, ?_, ?_, ?_, ?_, ?_, ?_, ?_,
    ?_, ?_, ?_, ?_, ?_⟩
  · intro url wu gr tr fu; cases gr <;> cases tr <;> rfl
  · intro t; rfl
  · intro e; rfl
  · intro t; rfl
  · intro e; rfl
  · intro sel w cr nr u; cases w <;> cases cr <;> cases nr <;> rfl
  · intro sel val sub fr pr; cases fr <;> cases sub <;> cases pr <;> rfl
  · intro sel attributes n els
    simp only [WebTool.extract_elements]
    split <;> rfl
  · intro fp esel qr er pr ts
    simp only [WebTool.take_screenshot]
    split
    · split
      · rfl
      · split <;> rfl
    · split <;> rfl
  · intro scpt er ty; cases er <;> rfl
  · intro sel st t wr
    cases wr with
    | ok v => rfl
    | error pe => cases pe <;> rfl
  · intro q n gr blocks; cases gr <;> rfl
  · intro d er; cases er <;> rfl
  · intro h pc cc bc ps
    rcases h with ⟨_ | pw, _ | br, _ | cx, _ | pg⟩ <;>
      cases pc <;> cases cc <;> cases bc <;> cases ps <;> rfl
  · intro hr tr pu c; rfl
  · intro hr ev tr pu; rfl
  · intro hr ev tr pu ct
    cases ct with
    | html => cases hr with
      | ok c => exact Or.inl ⟨c, rfl⟩
      | error e => exact Or.inr rfl
    | text => cases ev with
      | ok c => exact Or.inl ⟨c, rfl⟩
      | error e => exact Or.inr rfl
    | title => cases tr with
      | ok c => exact Or.inl ⟨c, rfl⟩
      | error e => exact Or.inr rfl
    | url => exact Or.inl ⟨pu, rfl⟩
  · intro sel w t cr nr u; cases w <;> cases cr <;> cases nr <;> rfl
  · intro sel attrs n els
    simp only [SearchTool.extract_elements]
    split <;> rfl
  · intro mx cache fp esel qr er pr ts
    simp only [SearchTool.take_screenshot, SearchTool.take_screenshot.finish]
    split
    · split
      · rfl
      · split
        · rfl
        · split <;> rfl
    · split
      · rfl
      · split <;> rfl
  · intro sel st t wr
    cases wr with
    | ok v => rfl
    | error pe => cases pe <;> rfl
